import Mathlib

/-!
Verification of the CommunicationAppUI real-time connection manager and its
surrounding services, as a shallow embedding of the JavaScript source.

The connection manager (`ChatService` in `src/services/userService.js`) owns a
single SignalR hub connection, an outbound message queue for sends attempted
while disconnected, and ordered callback lists for each event kind.  Transport
effects (`connection.start()`, `connection.invoke(...)`) are modelled as
`Except String Unit` outcomes supplied by the environment; a JavaScript `throw`
crossing an operation's boundary is an `Except.error` result of the embedded
operation, while caught failures yield `Except.ok` results together with the
state mutations the catch block performs.
-/

namespace CommApp

/-- Lifecycle states of the `@microsoft/signalr` `HubConnectionState`
enumeration (the external transport library the manager reads its state
from): `Disconnected`, `Connecting`, `Connected`, `Disconnecting`,
`Reconnecting`. -/
inductive HubConnectionState where
  | Disconnected
  | Connecting
  | Connected
  | Disconnecting
  | Reconnecting
  deriving DecidableEq, Repr

/-- One entry of the outbound message queue: the object
`{ receiverId, content }` pushed by `sendMessage`. -/
structure QueuedMessage where
  receiverId : Int
  content : String
  deriving DecidableEq, Repr

/-- The mutable fields of `ChatService` the queueing claims depend on:
`this.connection` (absent, or present with the transport's lifecycle state)
and `this.messageQueue`. -/
structure ChatState where
  connection : Option HubConnectionState
  messageQueue : List QueuedMessage
  deriving DecidableEq, Repr

/-- A record of one `connection.invoke('SendMessage', receiverId, content)`
call made against the hub, paired with the outcome the transport reported
(`true` = the invocation resolved, `false` = it rejected). -/
abbrev InvokeRecord := QueuedMessage × Bool

/-- `ChatService.sendMessage(receiverId, content)`.  `conn` is the live read of
`this.connection` and its `state`; `invoke` is the outcome the transport gives
for `connection.invoke('SendMessage', ...)`.  Not connected: the message is
pushed onto the queue and the method returns.  Connected: the invocation is
attempted; a rejection is caught and the message pushed onto the queue for
retry.  The result carries the new queue and the invocation records made. -/
def sendMessage (conn : Option HubConnectionState) (invoke : Except String Unit)
    (queue : List QueuedMessage) (receiverId : Int) (content : String) :
    Except String (List QueuedMessage × List InvokeRecord) :=
  if conn ≠ some HubConnectionState.Connected then
    Except.ok (queue ++ [⟨receiverId, content⟩], [])
  else
    match invoke with
    | Except.ok _ => Except.ok (queue, [(⟨receiverId, content⟩, true)])
    | Except.error _ => Except.ok (queue ++ [⟨receiverId, content⟩], [(⟨receiverId, content⟩, false)])

/-- The loop body of `flushMessageQueue`: resend the snapshotted entries in
order via `sendMessage`, threading the live queue (which starts empty after
the clear).  `env i` supplies, for the `i`-th resend, the live read of
`this.connection` and the transport outcome of that resend's invocation. -/
def flushLoop (env : Nat → Option HubConnectionState × Except String Unit) :
    Nat → List QueuedMessage → List QueuedMessage →
    Except String (List QueuedMessage × List InvokeRecord)
  | _, queue, [] => Except.ok (queue, [])
  | i, queue, m :: ms => do
    let (q1, t1) ← sendMessage (env i).1 (env i).2 queue m.receiverId m.content
    let (q2, t2) ← flushLoop env (i + 1) q1 ms
    Except.ok (q2, t1 ++ t2)

/-- `ChatService.flushMessageQueue()`: early return on an empty queue;
otherwise snapshot the queue (`[...this.messageQueue]`), clear it
(`this.messageQueue = []`), and resend each snapshotted entry via
`sendMessage` in original order. -/
def flushMessageQueue (s : ChatState)
    (env : Nat → Option HubConnectionState × Except String Unit) :
    Except String (ChatState × List InvokeRecord) :=
  if s.messageQueue.isEmpty then Except.ok (s, [])
  else do
    let (q, tr) ← flushLoop env 0 [] s.messageQueue
    Except.ok ({ s with messageQueue := q }, tr)

/-- A sequence of `sendMessage` calls performed in order against a fixed read
of `this.connection`, the `i`-th call given transport outcome `inv i`,
threading the queue and collecting the invocation records. -/
def sendAll (conn : Option HubConnectionState) (inv : Nat → Except String Unit) :
    Nat → List QueuedMessage → List QueuedMessage →
    Except String (List QueuedMessage × List InvokeRecord)
  | _, queue, [] => Except.ok (queue, [])
  | i, queue, m :: ms => do
    let (q1, t1) ← sendMessage conn (inv i) queue m.receiverId m.content
    let (q2, t2) ← sendAll conn inv (i + 1) q1 ms
    Except.ok (q2, t1 ++ t2)

/-- Whether the `i`-th resend of a flush goes through: the connection is read
as `Connected` and the invocation resolves. -/
def okStep (env : Nat → Option HubConnectionState × Except String Unit)
    (i : Nat) : Bool :=
  match env i with
  | (some HubConnectionState.Connected, Except.ok _) => true
  | _ => false

/-- The entries a flush starting at step `i` puts back onto the queue, in
original order: those resent while not connected plus those whose invocation
rejected. -/
def flushKept (env : Nat → Option HubConnectionState × Except String Unit) :
    Nat → List QueuedMessage → List QueuedMessage
  | _, [] => []
  | i, m :: ms => (if okStep env i then [] else [m]) ++ flushKept env (i + 1) ms

/-- The entries a flush starting at step `i` delivers (invocation resolved),
in original order. -/
def flushSent (env : Nat → Option HubConnectionState × Except String Unit) :
    Nat → List QueuedMessage → List QueuedMessage
  | _, [] => []
  | i, m :: ms => (if okStep env i then [m] else []) ++ flushSent env (i + 1) ms

/-- The invocation records a flush starting at step `i` produces: one record
per entry resent while connected, in original order. -/
def flushTrace (env : Nat → Option HubConnectionState × Except String Unit) :
    Nat → List QueuedMessage → List InvokeRecord
  | _, [] => []
  | i, m :: ms =>
    (match env i with
     | (some HubConnectionState.Connected, Except.ok _) => [(m, true)]
     | (some HubConnectionState.Connected, Except.error _) => [(m, false)]
     | _ => []) ++ flushTrace env (i + 1) ms

/-- `ChatService.disconnect()`: a no-op when no connection exists; otherwise
`await this.connection.stop()` — with no `try`/`catch`, so a rejected stop
propagates to the caller — then `this.connection = null`.  `stopOutcome` is
the transport's result for `stop()`.  A resolved stop of a connection that
was live (not already in the transport's `Disconnected` state) transitions it
to `Disconnected` and fires that connection's `onclose` handler, which emits
the `'disconnected'` connection-state notification; the first component lists
the notifications emitted. -/
def disconnect (s : ChatState) (stopOutcome : Except String Unit) :
    List String × Except String ChatState :=
  match s.connection with
  | none => ([], Except.ok s)
  | some st =>
    match stopOutcome with
    | Except.ok _ =>
        ((if st = HubConnectionState.Disconnected then [] else ["disconnected"]),
         Except.ok { s with connection := none })
    | Except.error e => ([], Except.error e)

/-- `ChatService.connect(token)` restricted to what the error-handling claims
need.  First, `if (this.connection) await this.disconnect()` tears down any
existing connection — uncaught, so a rejected stop propagates (modelled by
`disconnect`, which is already a no-op without a connection, making its
unconditional use equivalent to the guarded call).  Then a new connection is
built with its handlers and `startOutcome` gives the result of
`await this.connection.start()`: on success the manager notifies
`'connected'` and holds a connected transport; on failure it notifies
`'error'` and rethrows the error to the caller.  The first component is the
list of connection-state notifications emitted. -/
def connect (s : ChatState) (stopOutcome startOutcome : Except String Unit) :
    List String × Except String ChatState :=
  match disconnect s stopOutcome with
  | (notes, Except.error e) => (notes, Except.error e)
  | (notes, Except.ok s1) =>
    match startOutcome with
    | Except.ok _ =>
        (notes ++ ["connected"],
         Except.ok { connection := some HubConnectionState.Connected,
                     messageQueue := s1.messageQueue })
    | Except.error e => (notes ++ ["error"], Except.error e)

/-- `ChatService.getConversation(otherUserId)`.  Not connected: warn and
return.  Connected: attempt `connection.invoke('GetConversation', ...)`; a
rejection is caught and logged.  The result lists the user ids of the
invocations that resolved. -/
def getConversation (conn : Option HubConnectionState) (invoke : Except String Unit)
    (otherUserId : Int) : Except String (List Int) :=
  if conn ≠ some HubConnectionState.Connected then
    Except.ok []
  else
    match invoke with
    | Except.ok _ => Except.ok [otherUserId]
    | Except.error _ => Except.ok []

/-- `ChatService.getConnectionState()`: `'disconnected'` when no connection
object exists, otherwise a `switch` on the transport's state with a `default`
branch returning `'unknown'`; of the five `HubConnectionState` members only
`Disconnecting` reaches the default branch. -/
def getConnectionState (conn : Option HubConnectionState) : String :=
  match conn with
  | none => "disconnected"
  | some HubConnectionState.Connected => "connected"
  | some HubConnectionState.Connecting => "connecting"
  | some HubConnectionState.Reconnecting => "reconnecting"
  | some HubConnectionState.Disconnected => "disconnected"
  | some HubConnectionState.Disconnecting => "unknown"

/-- The `nextRetryDelayInMilliseconds` callback passed to
`withAutomaticReconnect` in `ChatService.connect`: delay before the next
reconnection attempt, given how many retries have already happened. -/
def nextRetryDelayInMilliseconds (previousRetryCount : Nat) : Nat :=
  if previousRetryCount = 0 then 0
  else if previousRetryCount = 1 then 2000
  else if previousRetryCount = 2 then 10000
  else 30000

/-! ### Callback registries

Each subscription method of `ChatService` pushes the callback onto an ordered
array and returns a handle that filters it back out; event arrival iterates
the array with `forEach`.  Callbacks are modelled by `Nat` identifiers and an
event delivery by the list of `(callback, payload)` invocations it makes. -/

/-- `this.xxxCallbacks.push(callback)` inside a subscription method. -/
def registerCallback (l : List Nat) (c : Nat) : List Nat := l ++ [c]

/-- The deregistration handle returned by a subscription method:
`this.xxxCallbacks = this.xxxCallbacks.filter((x) => x !== callback)`. -/
def deregisterCallback (l : List Nat) (c : Nat) : List Nat :=
  l.filter (fun x => x ≠ c)

/-- Event fan-out: `this.xxxCallbacks.forEach((callback) => callback(payload))`,
recorded as the ordered list of invocations made. -/
def fireEvent (l : List Nat) (payload : String) : List (Nat × String) :=
  l.map (fun c => (c, payload))

/-- A sequence of subscriptions performed in order. -/
def registerAll (l : List Nat) (cs : List Nat) : List Nat :=
  cs.foldl registerCallback l

/-! ### Browser storage, auth service and the REST interceptor -/

/-- The three `localStorage` keys the application uses. -/
structure Storage where
  token : Option String
  userId : Option String
  username : Option String
  deriving DecidableEq, Repr

/-- JavaScript truthiness of a `localStorage.getItem` result: `null` and the
empty string are falsy, every other string is truthy. -/
def truthyItem : Option String → Bool
  | none => false
  | some s => s ≠ ""

/-- `authService.isAuthenticated()`: `!!localStorage.getItem('token')`. -/
def isAuthenticated (st : Storage) : Bool := truthyItem st.token

/-- `authService.logout()`: remove all three keys. -/
def logout (_ : Storage) : Storage := ⟨none, none, none⟩

/-- The error branch of `api.interceptors.response` in the axios wrapper: on a
401 status, remove the three storage keys and set `window.location.href` to
`'/login'`; any other failure leaves storage and location untouched (the error
is re-rejected to the caller either way). -/
def responseErrorInterceptor (status : Option Nat) (st : Storage)
    (location : String) : Storage × String :=
  if status = some 401 then (⟨none, none, none⟩, "/login")
  else (st, location)

/-! ### Chat page handlers -/

/-- A user directory entry, as delivered by the `UserRegistered` event. -/
structure User where
  id : Int
  username : String
  deriving DecidableEq, Repr

/-- `Chat.handleUserRegistered(user)`: ignore a missing user, ignore a user
whose id equals the current session's own id, ignore a duplicate id, and
otherwise append the user to the directory. -/
def handleUserRegistered (currentUserId : Int) (users : List User)
    (user : Option User) : List User :=
  match user with
  | none => users
  | some u =>
    if u.id = currentUserId then users
    else if users.any (fun x => x.id = u.id) then users
    else users ++ [u]

/-- JavaScript `String.prototype.trim`: strip whitespace from both ends of
the string. -/
def jsTrim (s : String) : String :=
  String.mk (((s.data.dropWhile Char.isWhitespace).reverse.dropWhile
    Char.isWhitespace).reverse)

/-- `MessageInput.handleSend()`: invoke `onSendMessage` with the trimmed
message exactly when the trimmed message is truthy (non-empty) and the
composer is not disabled; `some s` records an invocation with value `s`. -/
def handleSend (message : String) (disabled : Bool) : Option String :=
  if jsTrim message ≠ "" ∧ disabled = false then some (jsTrim message)
  else none

/-! ## Helper lemmas -/

/-- Binding an `Except` success is function application. -/
theorem ok_bind {ε α β : Type} (a : α) (f : α → Except ε β) :
    ((Except.ok a : Except ε α) >>= f) = f a := rfl

/-- A send performed while the connection is not read as `Connected` only
appends the message to the queue. -/
theorem sendMessage_offline (conn : Option HubConnectionState)
    (h : conn ≠ some HubConnectionState.Connected) (invoke : Except String Unit)
    (queue : List QueuedMessage) (receiverId : Int) (content : String) :
    sendMessage conn invoke queue receiverId content =
      Except.ok (queue ++ [⟨receiverId, content⟩], []) := by
  unfold sendMessage
  rw [if_pos h]

/-- Every sequence of sends performed while not connected appends exactly its
messages, in order, and makes no invocation. -/
theorem sendAll_offline (conn : Option HubConnectionState)
    (h : conn ≠ some HubConnectionState.Connected) (inv : Nat → Except String Unit)
    (msgs : List QueuedMessage) :
    ∀ (i : Nat) (queue : List QueuedMessage),
      sendAll conn inv i queue msgs = Except.ok (queue ++ msgs, []) := by
  induction msgs with
  | nil => intro i queue; simp [sendAll]
  | cons m ms ih =>
    intro i queue
    simp [sendAll, sendMessage_offline conn h, ih, ok_bind]

/-- When every step of the flush environment is connected with a resolving
invocation, the flush loop delivers every entry, in order, and keeps none. -/
theorem flushLoop_all_ok (env : Nat → Option HubConnectionState × Except String Unit)
    (henv : ∀ j, env j = (some HubConnectionState.Connected, Except.ok ()))
    (msgs : List QueuedMessage) :
    ∀ (i : Nat) (queue : List QueuedMessage),
      flushLoop env i queue msgs =
        Except.ok (queue, msgs.map (fun m => (m, true))) := by
  induction msgs with
  | nil => intro i queue; simp [flushLoop]
  | cons m ms ih =>
    intro i queue
    simp [flushLoop, sendMessage, henv i, ih, ok_bind]

/-- Exact characterization of the flush loop: the queue it leaves behind is
the starting queue followed by the kept entries, and the invocation records
are `flushTrace`. -/
theorem flushLoop_characterization
    (env : Nat → Option HubConnectionState × Except String Unit)
    (msgs : List QueuedMessage) :
    ∀ (i : Nat) (queue : List QueuedMessage),
      flushLoop env i queue msgs =
        Except.ok (queue ++ flushKept env i msgs, flushTrace env i msgs) := by
  induction msgs with
  | nil => intro i queue; simp [flushLoop, flushKept, flushTrace]
  | cons m ms ih =>
    intro i queue
    rcases henv : env i with ⟨c, inv⟩
    match c, inv with
    | some HubConnectionState.Connected, Except.ok u =>
      simp [flushLoop, sendMessage, henv, ih, flushKept, flushTrace, okStep, ok_bind]
    | some HubConnectionState.Connected, Except.error e =>
      simp [flushLoop, sendMessage, henv, ih, flushKept, flushTrace, okStep, ok_bind]
    | none, inv =>
      simp [flushLoop, sendMessage, henv, ih, flushKept, flushTrace, okStep, ok_bind]
    | some HubConnectionState.Disconnected, inv =>
      simp [flushLoop, sendMessage, henv, ih, flushKept, flushTrace, okStep, ok_bind]
    | some HubConnectionState.Connecting, inv =>
      simp [flushLoop, sendMessage, henv, ih, flushKept, flushTrace, okStep, ok_bind]
    | some HubConnectionState.Disconnecting, inv =>
      simp [flushLoop, sendMessage, henv, ih, flushKept, flushTrace, okStep, ok_bind]
    | some HubConnectionState.Reconnecting, inv =>
      simp [flushLoop, sendMessage, henv, ih, flushKept, flushTrace, okStep, ok_bind]

/-- `flushMessageQueue` never throws: it returns the state whose queue holds
exactly the kept entries, together with the invocation records. -/
theorem flushMessageQueue_eq (s : ChatState)
    (env : Nat → Option HubConnectionState × Except String Unit) :
    flushMessageQueue s env =
      Except.ok ({ s with messageQueue := flushKept env 0 s.messageQueue },
                 flushTrace env 0 s.messageQueue) := by
  rcases s with ⟨conn, mq⟩
  cases mq with
  | nil => simp [flushMessageQueue, flushKept, flushTrace]
  | cons m ms =>
    simp [flushMessageQueue, flushLoop_characterization, ok_bind]

/-- Each queued entry ends up, counted with multiplicity, either among the
delivered entries or among the kept entries. -/
theorem flush_partition (env : Nat → Option HubConnectionState × Except String Unit)
    (msgs : List QueuedMessage) :
    ∀ i : Nat, List.Perm msgs (flushSent env i msgs ++ flushKept env i msgs) := by
  induction msgs with
  | nil => intro i; simp [flushSent, flushKept]
  | cons m ms ih =>
    intro i
    by_cases h : okStep env i = true
    · simpa [flushSent, flushKept, h] using (ih (i + 1)).cons m
    · have hh : okStep env i = false := by
        cases hv : okStep env i
        · rfl
        · exact absurd hv h
      simp only [flushSent, flushKept, hh, Bool.false_eq_true, if_false,
        List.nil_append, List.singleton_append]
      exact ((ih (i + 1)).cons m).trans List.perm_middle.symm

/-- A delivered entry has a resolved invocation record in the trace. -/
theorem flushSent_mem_trace (env : Nat → Option HubConnectionState × Except String Unit)
    (msgs : List QueuedMessage) :
    ∀ i : Nat, ∀ m ∈ flushSent env i msgs, (m, true) ∈ flushTrace env i msgs := by
  induction msgs with
  | nil => intro i m hm; simp [flushSent] at hm
  | cons x ms ih =>
    intro i m hm
    rcases henv : env i with ⟨c, inv⟩
    by_cases h : okStep env i = true
    · rw [flushSent] at hm
      rw [if_pos h] at hm
      rcases List.mem_cons.mp hm with h1 | h2
      · subst h1
        rw [flushTrace]
        unfold okStep at h
        rw [henv] at h
        match c, inv, h with
        | some HubConnectionState.Connected, Except.ok u, _ =>
          rw [henv]; exact List.mem_append_left _ (by simp)
      · rw [flushTrace]
        exact List.mem_append_right _ (ih (i + 1) m h2)
    · rw [flushSent] at hm
      rw [if_neg h] at hm
      rw [List.nil_append] at hm
      rw [flushTrace]
      exact List.mem_append_right _ (ih (i + 1) m hm)

/-! ## Claim theorems -/

/-- **C1.**  Every sequence of `sendMessage` calls made while the connection
is not read as `Connected` leaves exactly those messages, in submission
order, on the queue with no remote invocation; a subsequent flush whose every
resend succeeds empties the queue and makes one resolved `SendMessage`
invocation per message, in the same submission order. -/
theorem offline_sends_then_flush
    (conn : Option HubConnectionState)
    (hconn : conn ≠ some HubConnectionState.Connected)
    (inv : Nat → Except String Unit) (msgs : List QueuedMessage)
    (env : Nat → Option HubConnectionState × Except String Unit)
    (henv : ∀ j, env j = (some HubConnectionState.Connected, Except.ok ())) :
    sendAll conn inv 0 [] msgs = Except.ok (msgs, []) ∧
    flushMessageQueue ⟨conn, msgs⟩ env =
      Except.ok (⟨conn, []⟩, msgs.map (fun m => (m, true))) := by
  constructor
  · simpa using sendAll_offline conn hconn inv msgs 0 []
  · cases msgs with
    | nil => simp [flushMessageQueue]
    | cons m ms =>
      simp [flushMessageQueue, flushLoop_all_ok env henv, ok_bind]

/-- **C1, witness.**  One message sent with no connection, then flushed over
a healthy connection. -/
theorem offline_sends_then_flush_witness :
    sendAll none (fun _ => Except.ok ()) 0 [] [⟨5, "hi"⟩] =
      Except.ok ([⟨5, "hi"⟩], []) ∧
    flushMessageQueue ⟨none, [⟨5, "hi"⟩]⟩
        (fun _ => (some HubConnectionState.Connected, Except.ok ())) =
      Except.ok (⟨none, []⟩, [(⟨5, "hi"⟩, true)]) :=
  offline_sends_then_flush none (by decide) (fun _ => Except.ok ()) [⟨5, "hi"⟩]
    (fun _ => (some HubConnectionState.Connected, Except.ok ())) (fun _ => rfl)

/-- **C2, counterexample.**  Two public operations of the connection manager
rethrow transport failures to their caller: `connect` rethrows a failed
handshake after the `'error'` notification, and `disconnect` propagates a
rejected `stop()` of an existing connection uncaught. -/
theorem connect_and_disconnect_rethrow_counterexample :
    connect ⟨none, []⟩ (Except.ok ()) (Except.error "handshake failed") =
      (["error"], Except.error "handshake failed") ∧
    disconnect ⟨some HubConnectionState.Connected, []⟩
        (Except.error "stop failed") =
      ([], Except.error "stop failed") :=
  ⟨rfl, rfl⟩

/-- **C2, amended.**  Of the five public operations, `sendMessage`,
`getConversation` and `flushMessageQueue` absorb every transport failure into
a queue mutation or a logged no-op and never throw; `connect`, however,
converts a failed handshake into an `'error'` connection-state notification
and then rethrows the error to its caller, and `disconnect` propagates a
rejected `stop()` of an existing connection to its caller uncaught. -/
theorem public_api_error_absorption_amended
    (conn : Option HubConnectionState) (invoke : Except String Unit)
    (queue q : List QueuedMessage) (receiverId otherUserId : Int)
    (content : String) (s : ChatState)
    (env : Nat → Option HubConnectionState × Except String Unit)
    (st : HubConnectionState) (e : String) :
    (∃ r, sendMessage conn invoke queue receiverId content = Except.ok r) ∧
    (∃ r, getConversation conn invoke otherUserId = Except.ok r) ∧
    (∃ r, flushMessageQueue s env = Except.ok r) ∧
    (connect s (Except.ok ()) (Except.error e)).2 = Except.error e ∧
    (disconnect ⟨some st, q⟩ (Except.error e)).2 = Except.error e := by
  refine ⟨?_, ?_, ⟨_, flushMessageQueue_eq s env⟩, ?_, rfl⟩
  · unfold sendMessage
    split
    · exact ⟨_, rfl⟩
    · cases invoke <;> exact ⟨_, rfl⟩
  · unfold getConversation
    split
    · exact ⟨_, rfl⟩
    · cases invoke <;> exact ⟨_, rfl⟩
  · rcases s with ⟨c, mq⟩
    cases c with
    | none => rfl
    | some st' => simp [connect, disconnect]

/-- **C5.**  A flush snapshots and clears the queue and resends each entry in
original order: the resulting queue holds exactly the entries whose resend
failed or happened while not connected (in original order), every originally
queued entry is either successfully invoked or back on the queue, and a flush
of an empty queue makes no remote invocation. -/
theorem flush_no_message_lost (s : ChatState)
    (env : Nat → Option HubConnectionState × Except String Unit) :
    flushMessageQueue s env =
      Except.ok ({ s with messageQueue := flushKept env 0 s.messageQueue },
                 flushTrace env 0 s.messageQueue) ∧
    List.Perm s.messageQueue
      (flushSent env 0 s.messageQueue ++ flushKept env 0 s.messageQueue) ∧
    (∀ m ∈ s.messageQueue,
        (m, true) ∈ flushTrace env 0 s.messageQueue ∨
        m ∈ flushKept env 0 s.messageQueue) ∧
    (s.messageQueue = [] →
        flushMessageQueue s env = Except.ok (s, []) ∧
        flushTrace env 0 s.messageQueue = []) := by
  refine ⟨flushMessageQueue_eq s env, flush_partition env s.messageQueue 0, ?_, ?_⟩
  · intro m hm
    rcases List.mem_append.mp
        ((flush_partition env s.messageQueue 0).mem_iff.mp hm) with h | h
    · exact Or.inl (flushSent_mem_trace env s.messageQueue 0 m h)
    · exact Or.inr h
  · intro h
    rcases s with ⟨conn, mq⟩
    cases h
    exact ⟨by simp [flushMessageQueue], by simp [flushTrace]⟩

/-- **C5, witness.**  A one-entry queue flushed over a healthy connection:
the entry is either successfully invoked or kept. -/
theorem flush_no_message_lost_witness :
    (⟨5, "hi"⟩, true) ∈
      flushTrace (fun _ => (some HubConnectionState.Connected, Except.ok ())) 0
        [⟨5, "hi"⟩] ∨
    QueuedMessage.mk 5 "hi" ∈
      flushKept (fun _ => (some HubConnectionState.Connected, Except.ok ())) 0
        [⟨5, "hi"⟩] :=
  (flush_no_message_lost ⟨some HubConnectionState.Connected, [⟨5, "hi"⟩]⟩
      (fun _ => (some HubConnectionState.Connected, Except.ok ()))).2.2.1
    ⟨5, "hi"⟩ (by decide)

/-- **C7.**  Each subscription appends the listener to the ordered callback
list (so a sequence of registrations yields exactly that sequence), an event
fires the listeners in registration order, and after a listener's
deregistration handle runs, no invocation of any later event targets it. -/
theorem listener_registration_spec (init cs : List Nat) (c : Nat)
    (payload : String) :
    registerAll [] cs = cs ∧
    (fireEvent (registerAll [] cs) payload).map Prod.fst = cs ∧
    registerCallback init c = init ++ [c] ∧
    (∀ (l : List Nat) (p : String), ∀ r ∈ fireEvent (deregisterCallback l c) p,
        r.1 ≠ c) := by
  have hreg : ∀ (l cs' : List Nat), registerAll l cs' = l ++ cs' := by
    intro l cs'
    induction cs' generalizing l with
    | nil => simp [registerAll]
    | cons x xs ih =>
      simp [registerAll, registerCallback] at ih ⊢
      simpa using ih (l ++ [x])
  refine ⟨by simpa using hreg [] cs, ?_, rfl, ?_⟩
  · rw [hreg [] cs]
    unfold fireEvent
    induction cs with
    | nil => rfl
    | cons x xs ih => simpa using ih

  · intro l p r hr
    simp only [fireEvent, deregisterCallback, List.mem_map, List.mem_filter,
      decide_eq_true_eq] at hr
    rcases hr with ⟨a, ⟨_, ha⟩, rfl⟩
    exact ha

/-- **C7, witness.**  After registering listeners 1 and 2 and deregistering
2, the event invocation targeting listener 1 does not target listener 2. -/
theorem listener_registration_spec_witness : (1, "hi").1 ≠ 2 :=
  (listener_registration_spec [] [1, 2] 2 "hi").2.2.2 [1, 2] "hi" (1, "hi")
    (by decide)

/-- **C3, counterexample.**  The transport's `Disconnecting` lifecycle state is
mapped by `getConnectionState` to `"unknown"`, which is not a member of the
five-state enumeration `connecting | connected | reconnecting | disconnected |
error`. -/
theorem getConnectionState_unknown_counterexample :
    getConnectionState (some HubConnectionState.Disconnecting) = "unknown" ∧
    "unknown" ∉ ["connecting", "connected", "reconnecting", "disconnected", "error"] := by
  refine ⟨rfl, ?_⟩
  decide

/-- **C3, amended.**  `getConnectionState` maps the absence of a connection to
`"disconnected"`, and every transport lifecycle state other than
`Disconnecting` into the five-state enumeration; the `Disconnecting` state
falls through the switch's default branch to `"unknown"`, a sixth value
outside the enumeration. -/
theorem getConnectionState_amended (conn : Option HubConnectionState) :
    getConnectionState none = "disconnected" ∧
    (conn ≠ some HubConnectionState.Disconnecting →
      getConnectionState conn ∈
        ["connecting", "connected", "reconnecting", "disconnected", "error"]) ∧
    getConnectionState (some HubConnectionState.Disconnecting) = "unknown" := by
  refine ⟨rfl, ?_, rfl⟩
  intro h
  match conn with
  | none => simp [getConnectionState]
  | some HubConnectionState.Connected => simp [getConnectionState]
  | some HubConnectionState.Connecting => simp [getConnectionState]
  | some HubConnectionState.Reconnecting => simp [getConnectionState]
  | some HubConnectionState.Disconnected => simp [getConnectionState]
  | some HubConnectionState.Disconnecting => exact absurd rfl h

/-- **C3, witness.**  Instantiation at the `Connected` transport state. -/
theorem getConnectionState_amended_witness :
    getConnectionState (some HubConnectionState.Connected) ∈
      ["connecting", "connected", "reconnecting", "disconnected", "error"] :=
  (getConnectionState_amended (some HubConnectionState.Connected)).2.1 (by decide)

/-- **C4.**  The reconnection backoff: the first retry (zero previous
retries) is immediate, the second waits 2000 ms, the third 10000 ms, and the
fourth and every later retry waits 30000 ms; no delay ever exceeds 30000 ms. -/
theorem backoff_schedule (k : Nat) (hk : 3 ≤ k) :
    nextRetryDelayInMilliseconds 0 = 0 ∧
    nextRetryDelayInMilliseconds 1 = 2000 ∧
    nextRetryDelayInMilliseconds 2 = 10000 ∧
    nextRetryDelayInMilliseconds k = 30000 ∧
    (∀ n, nextRetryDelayInMilliseconds n ≤ 30000) := by
  refine ⟨rfl, rfl, rfl, ?_, ?_⟩
  · unfold nextRetryDelayInMilliseconds
    rw [if_neg (by omega), if_neg (by omega), if_neg (by omega)]
  · intro n
    unfold nextRetryDelayInMilliseconds
    split <;> try omega
    split <;> try omega
    split <;> omega

/-- **C4, witness.**  Instantiation at the fifth retry. -/
theorem backoff_schedule_witness :
    nextRetryDelayInMilliseconds 4 = 30000 :=
  (backoff_schedule 4 (by omega)).2.2.2.1

/-- **C6.**  A 401 response, from any storage contents and any originating
page, removes all three storage keys and navigates to `/login`. -/
theorem unauthorized_response_clears_session (st : Storage) (location : String) :
    responseErrorInterceptor (some 401) st location = (⟨none, none, none⟩, "/login") :=
  rfl

/-- **C8.**  A `UserRegistered` event carrying a user whose id equals the
current session's own id leaves the user directory unchanged. -/
theorem self_registration_ignored (currentUserId : Int) (users : List User)
    (u : User) (h : u.id = currentUserId) :
    handleUserRegistered currentUserId users (some u) = users := by
  simp [handleUserRegistered, h]

/-- **C8, witness.**  A self-announcement with id 7 against a one-entry
directory. -/
theorem self_registration_ignored_witness :
    handleUserRegistered 7 [⟨1, "alice"⟩] (some ⟨7, "me"⟩) = [⟨1, "alice"⟩] :=
  self_registration_ignored 7 [⟨1, "alice"⟩] ⟨7, "me"⟩ rfl

/-- **C9.**  `handleSend` invokes the `onSendMessage` callback exactly when the
trimmed message is non-empty and the composer is not disabled, and the value
passed is the trimmed message; it is never invoked with an empty string. -/
theorem handleSend_spec (message : String) (disabled : Bool) :
    (∀ s, handleSend message disabled = some s →
        s = jsTrim message ∧ s ≠ "" ∧ disabled = false) ∧
    ((∃ s, handleSend message disabled = some s) ↔
        (jsTrim message ≠ "" ∧ disabled = false)) := by
  constructor
  · intro s hs
    unfold handleSend at hs
    split at hs
    · rename_i hcond
      cases hs
      exact ⟨rfl, hcond.1, hcond.2⟩
    · cases hs
  · constructor
    · rintro ⟨s, hs⟩
      unfold handleSend at hs
      split at hs
      · rename_i hcond
        exact hcond
      · cases hs
    · intro hcond
      exact ⟨jsTrim message, by unfold handleSend; rw [if_pos hcond]⟩

/-- **C9, witness.**  The composer holding `"  hi "`, enabled, sends exactly
the trimmed string `"hi"`. -/
theorem handleSend_spec_witness :
    "hi" = jsTrim "  hi " ∧ "hi" ≠ "" ∧ false = false :=
  (handleSend_spec "  hi " false).1 "hi" (by decide)

/-- **C10.**  `isAuthenticated` is true exactly when a non-empty token entry
is present, does not depend on the `userId` and `username` entries, and is
false immediately after `logout`. -/
theorem isAuthenticated_spec (st : Storage) (tok u1 u2 n1 n2 : Option String) :
    (isAuthenticated st = true ↔ ∃ t, st.token = some t ∧ t ≠ "") ∧
    isAuthenticated ⟨tok, u1, n1⟩ = isAuthenticated ⟨tok, u2, n2⟩ ∧
    isAuthenticated (logout st) = false := by
  refine ⟨?_, rfl, rfl⟩
  cases h : st.token with
  | none => simp [isAuthenticated, truthyItem, h]
  | some t => simp [isAuthenticated, truthyItem, h]

end CommApp
